import Mathlib

/-!
Verification of the Stock_pipeline analytics core against its specification.

The development shallowly embeds the Python source (app/services/indicators,
app/services/alerts, app/services/advisory, app/pipelines/orchestrator) in
Lean. Prices and indicator values are modelled as rationals (the source uses
binary floats; every property checked here is exact arithmetic and ordering,
insensitive to rounding), square roots as `Real.sqrt`, absent values (`None`
or pandas `NaN`) as `Option`, dataframe columns as lists indexed by row.
-/

namespace StockPipeline

/-! ## Indicator calculator (app/services/indicators/calculator.py)

`IndicatorCalculator` default parameters. -/

def maShortPeriod : Nat := 20
def maLongPeriod : Nat := 50
def rsiPeriod : Nat := 14
def bollingerPeriod : Nat := 20
def bollingerStd : ℚ := 2
def volatilityPeriod : Nat := 30

/-- Mean of a list of rationals (`Series.mean`); 0 on the empty list,
which the calculator never hits because `min_periods=1` windows are
nonempty. -/
def listMean (xs : List ℚ) : ℚ := xs.sum / xs.length

/-- The trailing window ending at row `i` of width at most `w`
(`Series.rolling(window=w, min_periods=1)`): partial windows shrink to the
available history. -/
def rollingWindow (w : Nat) (xs : List ℚ) (i : Nat) : List ℚ :=
  (xs.take (i + 1)).drop (i + 1 - w)

/-- Rolling mean at row `i` (`rolling(window=w, min_periods=1).mean()`). -/
def rollingMean (w : Nat) (xs : List ℚ) (i : Nat) : ℚ :=
  listMean (rollingWindow w xs i)

/-- Embeds `_calculate_moving_averages`: the SMA column of width `w`. -/
def movingAvg (w : Nat) (closes : List ℚ) : List ℚ :=
  (List.range closes.length).map (rollingMean w closes)

/-! ### RSI (`_calculate_rsi`) -/

/-- Embeds `close_price.diff()` at row `i`: `None` (NaN) on the first row. -/
def priceDelta (closes : List ℚ) (i : Nat) : Option ℚ :=
  if i = 0 then none else some (closes.getD i 0 - closes.getD (i - 1) 0)

/-- Embeds `delta.where(delta > 0, 0)`: positive deltas, NaN and non-positive
deltas replaced by 0 (pandas evaluates `NaN > 0` as false). -/
def gainAt (closes : List ℚ) (i : Nat) : ℚ :=
  match priceDelta closes i with
  | none => 0
  | some d => if 0 < d then d else 0

/-- Embeds the column `(-delta).where(delta < 0, 0)` analogously for losses. -/
def lossAt (closes : List ℚ) (i : Nat) : ℚ :=
  match priceDelta closes i with
  | none => 0
  | some d => if d < 0 then -d else 0

def gainSeries (closes : List ℚ) : List ℚ :=
  (List.range closes.length).map (gainAt closes)

def lossSeries (closes : List ℚ) : List ℚ :=
  (List.range closes.length).map (lossAt closes)

/-- Rolling average gain over the RSI window. -/
def gainAvg (closes : List ℚ) (i : Nat) : ℚ :=
  rollingMean rsiPeriod (gainSeries closes) i

/-- Rolling average loss over the RSI window. -/
def lossAvg (closes : List ℚ) (i : Nat) : ℚ :=
  rollingMean rsiPeriod (lossSeries closes) i

/-- The `rsi` column at row `i`: `rs = gain / loss.replace(0, nan)`,
`rsi = 100 - 100/(1+rs)`, then `fillna(50)`. A zero rolling average loss
therefore yields the neutral fill value 50, not 100. -/
def rsiAt (closes : List ℚ) (i : Nat) : ℚ :=
  if lossAvg closes i = 0 then 50
  else 100 - 100 / (1 + gainAvg closes i / lossAvg closes i)

/-! ### Bollinger Bands (`_calculate_bollinger_bands`) and the
`_to_float` output layer of `calculate_for_stock`.

`rolling(...).std()` uses the sample standard deviation (`ddof=1`), which
is NaN whenever the window holds fewer than two observations; NaN
propagates into `bb_upper`/`bb_lower` and `_to_float` turns it into
`None`. -/

/-- Sample variance of a window (`ddof=1`), `none` below two samples. -/
def sampleVar (xs : List ℚ) : Option ℚ :=
  if xs.length < 2 then none
  else some ((xs.map (fun x => (x - listMean xs) ^ 2)).sum / ((xs.length : ℚ) - 1))

/-- Embeds `bb_middle` column: 20-day SMA. -/
def bbMiddle (closes : List ℚ) (i : Nat) : ℚ :=
  rollingMean bollingerPeriod closes i

/-- Rolling sample variance of the close over the Bollinger window. -/
def bbVar (closes : List ℚ) (i : Nat) : Option ℚ :=
  sampleVar (rollingWindow bollingerPeriod closes i)

/-- Embeds `bb_upper` as stored by `calculate_for_stock`:
`middle + bollinger_std * rolling_std`, `None` where the std is NaN. -/
noncomputable def bbUpperOut (closes : List ℚ) (i : Nat) : Option ℝ :=
  (bbVar closes i).map (fun v => (bbMiddle closes i : ℝ) + (bollingerStd : ℝ) * Real.sqrt (v : ℝ))

/-- Embeds `bb_lower`: `middle - bollinger_std * rolling_std`, `None` where NaN. -/
noncomputable def bbLowerOut (closes : List ℚ) (i : Nat) : Option ℝ :=
  (bbVar closes i).map (fun v => (bbMiddle closes i : ℝ) - (bollingerStd : ℝ) * Real.sqrt (v : ℝ))

/-- The stored `rsi` output: after `fillna(50)` the column has no NaN, so
`_to_float` always yields a value. -/
def rsiOut (closes : List ℚ) (i : Nat) : Option ℚ :=
  some (rsiAt closes i)

/-- The stored short moving average output (always defined: the close is
present from row 0 and `min_periods=1`). -/
def maShortOut (closes : List ℚ) (i : Nat) : Option ℚ :=
  some (rollingMean maShortPeriod closes i)

/-! ### Annualized volatility (`_calculate_volatility`)

`returns = close.pct_change()` is NaN at row 0; the rolling std skips NaN
observations; finally `fillna(0)` substitutes 0 for every undefined
volatility. -/

/-- Embeds `pct_change` at row `i`. -/
def returnAt (closes : List ℚ) (i : Nat) : Option ℚ :=
  if i = 0 then none
  else some ((closes.getD i 0 - closes.getD (i - 1) 0) / closes.getD (i - 1) 0)

def returnsList (closes : List ℚ) : List (Option ℚ) :=
  (List.range closes.length).map (returnAt closes)

/-- Non-NaN returns inside the 30-row trailing window ending at `i`. -/
def volWindow (closes : List ℚ) (i : Nat) : List ℚ :=
  (((returnsList closes).take (i + 1)).drop (i + 1 - volatilityPeriod)).filterMap id

/-- Rolling sample variance of the daily returns; `none` where the pandas
std is NaN (fewer than two usable returns in the window). -/
def volVar (closes : List ℚ) (i : Nat) : Option ℚ :=
  sampleVar (volWindow closes i)

/-- The `volatility_30` column after `* sqrt(252)` and `fillna(0)`:
undefined windows are silently replaced by 0. -/
noncomputable def volatilityFill (closes : List ℚ) (i : Nat) : ℝ :=
  match volVar closes i with
  | none => 0
  | some v => Real.sqrt (v : ℝ) * Real.sqrt 252

/-- The stored volatility output: never NaN after the zero fill, so
`_to_float` always yields a value. -/
noncomputable def volatilityOut (closes : List ℚ) (i : Nat) : Option ℝ :=
  some (volatilityFill closes i)

/-! ### MA crossover detection (`_detect_ma_crossovers`) -/

inductive CrossSig where
  | bullish
  | bearish
  deriving DecidableEq, Repr, BEq

/-- The loop body at index `i ≥ 1`: compare the previous and current
short/long moving averages; `≤` flipping to `>` (`curL < curS`) emits
BULLISH, `≥` flipping to `<` emits BEARISH, otherwise the cell stays
null. -/
def crossAt (s l : List ℚ) (i : Nat) : Option CrossSig :=
  if i = 0 then none
  else if s.getD (i - 1) 0 ≤ l.getD (i - 1) 0 ∧ l.getD i 0 < s.getD i 0 then
    some .bullish
  else if l.getD (i - 1) 0 ≤ s.getD (i - 1) 0 ∧ s.getD i 0 < l.getD i 0 then
    some .bearish
  else none

/-- The `ma_crossover_signal` column computed from two MA columns. -/
def detectCrossovers (s l : List ℚ) : List (Option CrossSig) :=
  (List.range s.length).map (crossAt s l)

/-- Embeds `calculate_all` composition: crossovers of the configured short/long
SMA columns of a close series. -/
def calcCrossovers (wS wL : Nat) (closes : List ℚ) : List (Option CrossSig) :=
  detectCrossovers (movingAvg wS closes) (movingAvg wL closes)

/-! ## Alert evaluator (app/services/alerts/evaluator.py)

Dates are day numbers (`Nat`). The read side of the stores is a record of
functions (`get_latest_by_code`, `get_price_history`); the alert-history
write side is the list of stored `(stock_id, rule_id, alert_date)` keys,
which is exactly what `alert_exists` queries. Alert `message` and
`metadata` values are human-readable presentation (Python f-strings with
float formatting) and are elided from the alert record; the *key set* of
the produced dict, which decides the keyword-argument save call, is
modelled separately as `alertDictKeys`. -/

/-- Embeds `in` substring test on strings (Python `needle in hay`). -/
def strContainsSub (hay needle : String) : Bool :=
  (List.range (hay.length + 1)).any (fun i => needle.toList.isPrefixOf (hay.toList.drop i))

/-- Python `str.upper()` over the character-list model of strings
(extensionally `String.toUpper`). -/
def strUpper (s : String) : String :=
  String.mk (s.data.map Char.toUpper)

/-- A row of `fact_stock_prices` as read by the evaluator. -/
structure PriceRow where
  closePrice : ℚ
  change1dPct : Option ℚ
  volume : Option ℤ
  deriving DecidableEq, Repr

/-- A row of `fact_technical_indicators` as read by the evaluator. -/
structure IndicatorRow where
  rsi : Option ℚ
  volatility30 : Option ℚ
  maCrossoverSignal : Option CrossSig
  ma20 : Option ℚ
  ma50 : Option ℚ
  deriving DecidableEq, Repr

structure StockRef where
  stockId : Nat
  stockCode : String
  deriving DecidableEq, Repr

/-- An alert rule as the evaluator reads it: `rule.parameters` is used as
a key-to-number mapping with `.get(key, default)` (the spec notion of
`parameters (key→numeric)`). -/
structure AlertRuleRec where
  ruleId : Nat
  ruleType : String
  ruleName : String
  severity : String
  parameters : List (String × ℚ)
  deriving DecidableEq, Repr

/-- Embeds `rule.parameters.get(key, default)`. -/
def paramGet (ps : List (String × ℚ)) (key : String) (dflt : ℚ) : ℚ :=
  match ps.lookup key with
  | some v => v
  | none => dflt

/-- Read interface of the price/indicator stores for one evaluation:
latest row at or before a date by stock code, and the 30-day price
history window by stock id ending at the evaluation date (ascending). -/
structure MarketData where
  latestPrice : String → Nat → Option PriceRow
  latestIndicator : String → Nat → Option IndicatorRow
  priceHistory : Nat → Nat → List PriceRow

/-- The fields of the alert dict shared by all five checks (message and
metadata payloads elided, see above). -/
structure AlertDict where
  stockId : Nat
  ruleId : Nat
  alertDate : Nat
  severity : String
  deriving DecidableEq, Repr

/-- The literal key set of the dict each check builds. -/
def alertDictKeys : List String :=
  ["stock_id", "rule_id", "alert_date", "severity", "message", "metadata"]

/-- Embeds `_check_price_movement`. -/
def checkPriceMovement (rule : AlertRuleRec) (stock : StockRef) (d : Nat)
    (data : MarketData) : Option AlertDict :=
  match data.latestPrice stock.stockCode d with
  | none => none
  | some price =>
    match price.change1dPct with
    | none => none
    | some chg =>
      let threshold := paramGet rule.parameters "threshold" 5
      if threshold ≤ |chg| then
        some ⟨stock.stockId, rule.ruleId, d, rule.severity⟩
      else none

/-- Embeds `_check_ma_crossover`: the rule name (upper-cased) selects the
polarity by substring match. -/
def checkMaCrossover (rule : AlertRuleRec) (stock : StockRef) (d : Nat)
    (data : MarketData) : Option AlertDict :=
  match data.latestIndicator stock.stockCode d with
  | none => none
  | some ind =>
    match ind.maCrossoverSignal with
    | none => none
    | some sig =>
      let nameU := strUpper rule.ruleName
      if strContainsSub nameU "BULLISH" && (sig == .bullish) then
        some ⟨stock.stockId, rule.ruleId, d, rule.severity⟩
      else if strContainsSub nameU "BEARISH" && (sig == .bearish) then
        some ⟨stock.stockId, rule.ruleId, d, rule.severity⟩
      else none

/-- Embeds `_check_rsi`: OVERSOLD tested first; OVERBOUGHT only when the name
does not contain OVERSOLD. -/
def checkRsi (rule : AlertRuleRec) (stock : StockRef) (d : Nat)
    (data : MarketData) : Option AlertDict :=
  match data.latestIndicator stock.stockCode d with
  | none => none
  | some ind =>
    match ind.rsi with
    | none => none
    | some rv =>
      let nameU := strUpper rule.ruleName
      if strContainsSub nameU "OVERSOLD" then
        if rv ≤ paramGet rule.parameters "oversold" 30 then
          some ⟨stock.stockId, rule.ruleId, d, rule.severity⟩
        else none
      else if strContainsSub nameU "OVERBOUGHT" then
        if paramGet rule.parameters "overbought" 70 ≤ rv then
          some ⟨stock.stockId, rule.ruleId, d, rule.severity⟩
        else none
      else none

/-- Embeds `_check_volatility`. -/
def checkVolatility (rule : AlertRuleRec) (stock : StockRef) (d : Nat)
    (data : MarketData) : Option AlertDict :=
  match data.latestIndicator stock.stockCode d with
  | none => none
  | some ind =>
    match ind.volatility30 with
    | none => none
    | some vol =>
      if paramGet rule.parameters "threshold" (3/10) ≤ vol then
        some ⟨stock.stockId, rule.ruleId, d, rule.severity⟩
      else none

/-- Embeds `_check_volume_spike`: needs at least 5 price rows in the trailing
30-day window *including* the latest one; compares the latest volume
against the mean of the earlier non-missing volumes times the rule
multiplier. -/
def checkVolumeSpike (rule : AlertRuleRec) (stock : StockRef) (d : Nat)
    (data : MarketData) : Option AlertDict :=
  let prices := data.priceHistory stock.stockId d
  if prices.length < 5 then none
  else
    match prices.getLast? with
    | none => none
    | some latest =>
      match latest.volume with
      | none => none
      | some v =>
        let hist : List ℤ := prices.dropLast.filterMap (fun p => p.volume)
        if hist.isEmpty then none
        else
          let avgVolume : ℚ := (hist.map (fun z => (z : ℚ))).sum / (hist.length : ℚ)
          let multiplier := paramGet rule.parameters "multiplier" 2
          if avgVolume * multiplier ≤ (v : ℚ) then
            some ⟨stock.stockId, rule.ruleId, d, rule.severity⟩
          else none

/-- Rule-type dispatch of `_check_rule_for_stock` (string-keyed; unknown
types produce no alert). -/
def dispatchRule (rule : AlertRuleRec) (stock : StockRef) (d : Nat)
    (data : MarketData) : Option AlertDict :=
  if rule.ruleType = "PRICE_MOVEMENT" then checkPriceMovement rule stock d data
  else if rule.ruleType = "MA_CROSSOVER" then checkMaCrossover rule stock d data
  else if rule.ruleType = "RSI" then checkRsi rule stock d data
  else if rule.ruleType = "VOLATILITY" then checkVolatility rule stock d data
  else if rule.ruleType = "VOLUME_SPIKE" then checkVolumeSpike rule stock d data
  else none

/-- Stored alert-history keys, as queried by `alert_exists`. -/
abbrev AlertStore := List (Nat × Nat × Nat)

/-- Embeds `_check_rule_for_stock`: the dedup guard, then dispatch. -/
def checkRuleForStock (store : AlertStore) (rule : AlertRuleRec)
    (stock : StockRef) (d : Nat) (data : MarketData) : Option AlertDict :=
  if (stock.stockId, rule.ruleId, d) ∈ store then none
  else dispatchRule rule stock d data

/-- Embeds `evaluate_all_rules`: full rule × stock cross-product; the returned
alert list (empty rule or stock lists short-circuit to the same value). -/
def evaluateAllRules (store : AlertStore) (rules : List AlertRuleRec)
    (stocks : List StockRef) (d : Nat) (data : MarketData) : List AlertDict :=
  rules.flatMap (fun rule => stocks.filterMap (fun stock => checkRuleForStock store rule stock d data))

/-! ### The save path (`save_alerts` → `AlertRepository.create_alert`)

`save_alerts` calls `create_alert(**alert_data)`. Python accepts such a
keyword call only when every passed key is a declared parameter and every
parameter without a default is passed; otherwise the call raises
`TypeError`, which `save_alerts` catches per alert (the alert is skipped,
nothing is stored). -/

/-- Declared parameters of `AlertRepository.create_alert` (besides
`self`). -/
def createAlertAccepted : List String :=
  ["stock_id", "rule_id", "alert_date", "alert_type", "severity", "message", "trigger_value"]

/-- Parameters of `create_alert` that have no default value. -/
def createAlertRequired : List String :=
  ["stock_id", "rule_id", "alert_date", "alert_type", "severity", "message"]

/-- Whether a Python keyword call with the given key set binds. -/
def kwargsCallOk (accepted required kwargs : List String) : Bool :=
  kwargs.all (fun k => accepted.contains k) && required.all (fun k => kwargs.contains k)

/-- Embeds `save_alerts`: each alert whose keyword call binds is persisted under
its `(stock_id, rule_id, alert_date)` key; a `TypeError` is caught and
the alert skipped. -/
def saveAlerts (store : AlertStore) (alerts : List AlertDict) : AlertStore :=
  alerts.foldl
    (fun st a =>
      if kwargsCallOk createAlertAccepted createAlertRequired alertDictKeys then
        st ++ [(a.stockId, a.ruleId, a.alertDate)]
      else st)
    store

/-! ## Signal generator (app/services/advisory/signals.py)

Python float-format interpolation inside the human-readable reason
strings (`:.1f`, `:.2f`) is abstracted by `toString` of the rational;
no claim depends on the formatted digits. `indicators.get(key)` on the
indicator dict is a record of optional fields. -/

inductive Sig where
  | strongBuy
  | buy
  | hold
  | sell
  | strongSell
  deriving DecidableEq, Repr, BEq

/-- Embeds `SignalGenerator.__init__` thresholds. -/
structure SGParams where
  rsiOversold : ℚ
  rsiOverbought : ℚ
  rsiStrongOversold : ℚ
  rsiStrongOverbought : ℚ

def defaultSGParams : SGParams := ⟨30, 70, 20, 80⟩

/-- The indicator dict passed to `generate_signal`. -/
structure Inds where
  rsi14 : Option ℚ
  macd : Option ℚ
  macdSignalVal : Option ℚ
  sma50 : Option ℚ
  sma200 : Option ℚ
  currentPrice : Option ℚ
  volumeRatio : Option ℚ

def noInds : Inds := ⟨none, none, none, none, none, none, none⟩

/-- The signal returned by `generate_signal`. -/
structure TechSignal where
  sigType : Sig
  confidence : ℚ
  reasons : List String
  indicators : Inds

/-- Embeds `_analyze_rsi`: a vote `(signal, weight)` or no vote. -/
def analyzeRsi (p : SGParams) (rsi : Option ℚ) : Option (Sig × ℚ) :=
  match rsi with
  | none => none
  | some r =>
    if r ≤ p.rsiStrongOversold then some (.strongBuy, 3/2)
    else if r ≤ p.rsiOversold then some (.buy, 1)
    else if p.rsiStrongOverbought ≤ r then some (.strongSell, 3/2)
    else if p.rsiOverbought ≤ r then some (.sell, 1)
    else some (.hold, 1/2)

/-- Embeds `_analyze_macd`. -/
def analyzeMacd (macd macdSig : Option ℚ) : Option (Sig × ℚ) :=
  match macd, macdSig with
  | some m, some s =>
    let diff := m - s
    if 0 < diff ∧ 0 < m then some (.strongBuy, 6/5)
    else if 0 < diff then some (.buy, 4/5)
    else if diff < 0 ∧ m < 0 then some (.strongSell, 6/5)
    else if diff < 0 then some (.sell, 4/5)
    else some (.hold, 3/10)
  | _, _ => none

/-- Python `max(signals, key=weight)`: first element of maximal weight. -/
def pickMaxWeight (seed : Sig × ℚ) (xs : List (Sig × ℚ)) : Sig × ℚ :=
  xs.foldl (fun b c => if b.2 < c.2 then c else b) seed

/-- Embeds `_analyze_moving_averages`: golden/death cross and price-vs-SMA50
sub-signals, strongest wins; HOLD when no sub-signal fires. The source
divides by `sma_50` when computing the price gap; a zero SMA would raise
in Python and is modelled by total division (prices are positive in the
data model, so the case is unreachable). -/
def analyzeMAs (price sma50 sma200 : Option ℚ) : Option (Sig × ℚ) :=
  match price with
  | none => none
  | some pr =>
    let crossSigs : List (Sig × ℚ) :=
      match sma50, sma200 with
      | some s50, some s200 =>
        if s200 < s50 then [(.strongBuy, 13/10)]
        else if s50 < s200 then [(.strongSell, 13/10)]
        else []
      | _, _ => []
    let gapSigs : List (Sig × ℚ) :=
      match sma50 with
      | some s50 =>
        let priceDiffPct := ((pr - s50) / s50) * 100
        if 5 < priceDiffPct then [(.buy, 7/10)]
        else if priceDiffPct < -5 then [(.sell, 7/10)]
        else []
      | none => []
    match crossSigs ++ gapSigs with
    | [] => some (.hold, 1/2)
    | x :: rest => some (pickMaxWeight x rest)

/-- Embeds `_analyze_volume`. -/
def analyzeVolume (volumeRatio : Option ℚ) : Option (Sig × ℚ) :=
  match volumeRatio with
  | none => none
  | some vr =>
    if 2 < vr then some (.buy, 3/5)
    else if 3/2 < vr then some (.buy, 2/5)
    else if vr < 1/2 then some (.hold, 1/5)
    else none

/-- Accumulated weight of one signal type (the `signal_scores` dict). -/
def rawScore (sigs : List (Sig × ℚ)) (t : Sig) : ℚ :=
  ((sigs.filter (fun pr => pr.1 == t)).map (fun pr => pr.2)).sum

def totalWeight (sigs : List (Sig × ℚ)) : ℚ :=
  (sigs.map (fun pr => pr.2)).sum

/-- Normalized score (`/= total_weight` guarded by `total_weight > 0`). -/
def normScore (sigs : List (Sig × ℚ)) (t : Sig) : ℚ :=
  if 0 < totalWeight sigs then rawScore sigs t / totalWeight sigs
  else rawScore sigs t

/-- Embeds `max(signal_scores.items(), ...)` over the dict in insertion order. -/
def dominantPair (sigs : List (Sig × ℚ)) : Sig × ℚ :=
  pickMaxWeight (.strongBuy, normScore sigs .strongBuy)
    [(.buy, normScore sigs .buy), (.hold, normScore sigs .hold),
     (.sell, normScore sigs .sell), (.strongSell, normScore sigs .strongSell)]

/-- Embeds `_aggregate_signals`: dominant normalized vote, conflict dampening
(`* 0.6`), hold override, then the clamp to `[0.1, 0.95]`. -/
def aggregateSignals (sigs : List (Sig × ℚ)) : Sig × ℚ :=
  if sigs.isEmpty then (.hold, 1/2)
  else
    let dp := dominantPair sigs
    let buyScore := normScore sigs .strongBuy + normScore sigs .buy
    let sellScore := normScore sigs .strongSell + normScore sigs .sell
    let holdScore := normScore sigs .hold
    let adjusted : Sig × ℚ :=
      if 3/10 < buyScore ∧ 3/10 < sellScore then (dp.1, dp.2 * (3/5))
      else if 1/2 < holdScore then (.hold, holdScore)
      else dp
    (adjusted.1, max (min adjusted.2 (19/20)) (1/10))

/-- Reason strings for the RSI vote (`:.1f` formatting abstracted). -/
def fmtOpt (q : Option ℚ) : String :=
  match q with
  | some v => toString v
  | none => "None"

def rsiReasons (ind : Inds) (s : Option (Sig × ℚ)) : List String :=
  match s with
  | none => []
  | some pr =>
    if pr.1 == .strongBuy then ["RSI " ++ fmtOpt ind.rsi14 ++ " - Strongly oversold"]
    else if pr.1 == .buy then ["RSI " ++ fmtOpt ind.rsi14 ++ " - Oversold"]
    else if pr.1 == .strongSell then ["RSI " ++ fmtOpt ind.rsi14 ++ " - Strongly overbought"]
    else if pr.1 == .sell then ["RSI " ++ fmtOpt ind.rsi14 ++ " - Overbought"]
    else []

def macdReasons (ind : Inds) (s : Option (Sig × ℚ)) : List String :=
  match s with
  | none => []
  | some pr =>
    if pr.1 == .buy || pr.1 == .strongBuy then
      ["MACD bullish crossover (" ++ fmtOpt ind.macd ++ ")"]
    else if pr.1 == .sell || pr.1 == .strongSell then
      ["MACD bearish crossover (" ++ fmtOpt ind.macd ++ ")"]
    else []

def maReasons (ind : Inds) (s : Option (Sig × ℚ)) : List String :=
  match s with
  | none => []
  | some pr =>
    if pr.1 == .strongBuy then
      ["Golden Cross - SMA50 (" ++ fmtOpt ind.sma50 ++ ") > SMA200 (" ++ fmtOpt ind.sma200 ++ ")"]
    else if pr.1 == .buy then
      ["Price (" ++ fmtOpt ind.currentPrice ++ ") > SMA50 (" ++ fmtOpt ind.sma50 ++ ")"]
    else if pr.1 == .strongSell then
      ["Death Cross - SMA50 (" ++ fmtOpt ind.sma50 ++ ") < SMA200 (" ++ fmtOpt ind.sma200 ++ ")"]
    else if pr.1 == .sell then
      ["Price (" ++ fmtOpt ind.currentPrice ++ ") < SMA50 (" ++ fmtOpt ind.sma50 ++ ")"]
    else []

def volReasons (ind : Inds) (s : Option (Sig × ℚ)) : List String :=
  match s with
  | none => []
  | some pr =>
    if pr.1 == .buy || pr.1 == .strongBuy then
      ["High volume support (" ++ fmtOpt ind.volumeRatio ++ "x average)"]
    else []

/-- Embeds `generate_signal`: collect the four analyzer votes; with no votes,
HOLD at confidence 0.5 with the single insufficient-data reason;
otherwise aggregate. -/
def generateSignal (p : SGParams) (ind : Inds) : TechSignal :=
  let rsiS := analyzeRsi p ind.rsi14
  let macdS := analyzeMacd ind.macd ind.macdSignalVal
  let maS := analyzeMAs ind.currentPrice ind.sma50 ind.sma200
  let volS := analyzeVolume ind.volumeRatio
  let sigs := rsiS.toList ++ macdS.toList ++ maS.toList ++ volS.toList
  let reasons := rsiReasons ind rsiS ++ macdReasons ind macdS ++ maReasons ind maS
    ++ volReasons ind volS
  if sigs.isEmpty then
    { sigType := .hold, confidence := 1/2,
      reasons := ["Insufficient indicator data"], indicators := ind }
  else
    let fc := aggregateSignals sigs
    { sigType := fc.1, confidence := fc.2,
      reasons := if reasons.isEmpty then ["Mixed signals"] else reasons,
      indicators := ind }

/-! ## Pipeline orchestrator (app/pipelines/orchestrator.py)

`run` is embedded as a function of an environment recording the outcome
of every external interaction (fetch, validation, loads, evaluator,
notifier), threading the mutable `self.errors` / `self.warnings` lists.
Outcomes are `Except`: `.error` is the exception path of the stage.
Fetched rows are opaque tokens — only their count/emptiness drives the
control flow. Per-row warnings collected before a stage-level exception,
wall-clock `stage_times` and the batch loop are elided (they never touch
`errors` or `success`). -/

abbrev RawRow := Nat

/-- Embeds `self.errors` / `self.warnings`. -/
structure OrchState where
  errors : List String
  warnings : List String
  deriving DecidableEq, Repr

/-- Outcome of one `AlertNotifier.send_alert` / `send_daily_digest`
call: success, unsuccessful result with error list, or raised
exception. -/
inductive SendRes where
  | okSend
  | failSend (errs : List String)
  | excSend (msg : String)

/-- Alert fields the notification stage reads. -/
structure AlertInfo where
  severity : String
  alertId : Nat

/-- Notification collaborators and settings: channel flags, per-alert
send outcome, digest outcome, and an optional exception raised by the
channel setup before any send (caught by the outer handler of
`_send_alert_notifications`). -/
structure NotifEnv where
  emailEnabled : Bool
  slackEnabled : Bool
  sendAlert : Nat → SendRes
  digest : SendRes
  setupExc : Option String

/-- Embeds `PipelineConfig` flags. -/
structure OrchConfig where
  fetchNgx : Bool
  fetchYahoo : Bool
  validateData : Bool
  loadStocks : Bool
  loadPrices : Bool
  calculateIndicators : Bool
  evaluateAlerts : Bool
  generateRecommendations : Bool

/-- Validation report consumed by `_validate_data` (first-10 truncation
applies to these lists). -/
structure ValRep where
  rowWarnings : List String
  rowErrors : List String

/-- Environment of one `run`: configuration plus the outcome of each
external work of each stage. -/
structure OrchEnv where
  cfg : OrchConfig
  ngxFetch : Except String (List RawRow)
  valOutcome : Except String (List RawRow × ValRep)
  transformOutcome : Except String (List RawRow)
  loadStocksOutcome : Except String (Nat × List String)
  loadPricesOutcome : Except String (Nat × List String)
  calcIndOutcome : Except String (Nat × List String)
  alertsOutcome : Except String (List AlertInfo)
  recsOutcome : Except String Nat
  notif : NotifEnv

def joinComma (xs : List String) : String := String.intercalate ", " xs

/-- Body of the per-alert critical-notification loop of
`_send_alert_notifications`: an unsuccessful or raised send is recorded
as a warning. -/
def notifSendStep (n : NotifEnv) (s : OrchState) (a : AlertInfo) : OrchState :=
  if a.severity = "CRITICAL" then
    match n.sendAlert a.alertId with
    | .okSend => s
    | .failSend errs =>
      { s with warnings := s.warnings ++
          ["Notification failed for alert " ++ toString a.alertId ++ ": " ++ joinComma errs] }
    | .excSend m =>
      { s with warnings := s.warnings ++
          ["Notification exception for alert " ++ toString a.alertId ++ ": " ++ m] }
  else s

/-- Embeds `_send_alert_notifications`: every failure path appends to
`warnings`; the outer handler catches a setup exception likewise. The
critical-alert loop runs first, then the daily digest when email is
enabled and WARNING alerts exist. -/
def sendAlertNotifications (n : NotifEnv) (alerts : List AlertInfo)
    (st : OrchState) : OrchState :=
  match n.setupExc with
  | some m => { st with warnings := st.warnings ++ ["Notification setup error: " ++ m] }
  | none =>
    if ((if n.emailEnabled then ["email"] else [])
        ++ (if n.slackEnabled then ["slack"] else [])).isEmpty then st
    else
      if n.emailEnabled && !(alerts.filter (fun a => a.severity = "WARNING")).isEmpty then
        match n.digest with
        | .okSend => alerts.foldl (notifSendStep n) st
        | .failSend errs =>
          { alerts.foldl (notifSendStep n) st with
            warnings := (alerts.foldl (notifSendStep n) st).warnings ++
              ["Daily digest failed: " ++ joinComma errs] }
        | .excSend m =>
          { alerts.foldl (notifSendStep n) st with
            warnings := (alerts.foldl (notifSendStep n) st).warnings ++
              ["Daily digest exception: " ++ m] }
      else alerts.foldl (notifSendStep n) st

/-- Embeds `_fetch_data` (the NGX source is the only one constructed): rows and
the state after warnings/errors of the fetch itself. -/
def fetchStage (env : OrchEnv) (st : OrchState) : List RawRow × OrchState :=
  if env.cfg.fetchNgx then
    match env.ngxFetch with
    | .ok rows =>
      if rows.isEmpty then ([], { st with warnings := st.warnings ++ ["No data from NGX"] })
      else (rows, st)
    | .error e => ([], { st with errors := st.errors ++ ["NGX fetch failed: " ++ e] })
  else ([], st)

/-- Embeds `_validate_data`: per-row warnings become `Validation:` warnings,
per-row errors are routed to warnings when they mention `Duplicate`,
else to errors (first 10 each); a `DataValidationError` empties the
frame and appends one error. -/
def validateStage (env : OrchEnv) (st : OrchState) : List RawRow × OrchState :=
  match env.valOutcome with
  | .error e => ([], { st with errors := st.errors ++ ["Validation error: " ++ e] })
  | .ok (cleaned, rep) =>
    let st1 := { st with warnings := st.warnings ++
        (rep.rowWarnings.take 10).map (fun w => "Validation: " ++ w) }
    let st2 := (rep.rowErrors.take 10).foldl
      (fun s e =>
        if strContainsSub e "Duplicate" then
          { s with warnings := s.warnings ++ ["Validation: " ++ e] }
        else { s with errors := s.errors ++ ["Validation: " ++ e] })
      st1
    (cleaned, st2)

/-- Embeds `_transform_data`: exceptions are caught, logged into `errors` and
return an empty frame. -/
def transformStage (env : OrchEnv) (st : OrchState) : List RawRow × OrchState :=
  match env.transformOutcome with
  | .ok rows => (rows, st)
  | .error e => ([], { st with errors := st.errors ++ ["Transformation error: " ++ e] })

/-- Common shape of `_load_stocks` / `_load_prices` /
`_calculate_indicators`: on success a count plus per-row warnings, on a
stage-level exception one labelled error and count 0. -/
def loadStage (label : String) (out : Except String (Nat × List String))
    (st : OrchState) : Nat × OrchState :=
  match out with
  | .ok (n, ws) => (n, { st with warnings := st.warnings ++ ws })
  | .error e => (0, { st with errors := st.errors ++ [label ++ e] })

/-- Embeds `_evaluate_alerts`: alerts are saved, then notifications are sent
when a notifier is configured and alerts exist; the notification call is
additionally wrapped so an exception becomes a warning (the embedded
send is total, so the wrapper adds nothing). A stage-level exception
appends one error. -/
def alertsStage (n : NotifEnv) (out : Except String (List AlertInfo))
    (st : OrchState) : Nat × OrchState :=
  match out with
  | .error e => (0, { st with errors := st.errors ++ ["Alert evaluation error: " ++ e] })
  | .ok alerts =>
    let notifierOn := n.emailEnabled || n.slackEnabled
    let st1 := if !alerts.isEmpty && notifierOn then sendAlertNotifications n alerts st else st
    (alerts.length, st1)

/-- Embeds `_generate_recommendations`. -/
def recsStage (out : Except String Nat) (st : OrchState) : Nat × OrchState :=
  match out with
  | .ok n => (n, st)
  | .error e => (0, { st with errors := st.errors ++ ["Recommendation generation error: " ++ e] })

/-- Embeds `PipelineResult` (durations and stage times elided). -/
structure PipelineResult where
  success : Bool
  stocksProcessed : Nat
  pricesLoaded : Nat
  indicatorsCalculated : Nat
  alertsGenerated : Nat
  recommendationsGenerated : Nat
  errors : List String
  warnings : List String
  deriving DecidableEq, Repr

def mkResult (success : Bool) (stocks prices inds alerts recs : Nat)
    (st : OrchState) : PipelineResult :=
  ⟨success, stocks, prices, inds, alerts, recs, st.errors, st.warnings⟩

/-- Stages 3–8 of `run`, after the two fatal early-return checks; the
final `success = (errors is empty)`. -/
def afterValidate (env : OrchEnv) (validated : List RawRow)
    (st : OrchState) : PipelineResult :=
  let tr := if !validated.isEmpty then transformStage env st else ([], st)
  let transformed := tr.1
  let ls := if env.cfg.loadStocks && !transformed.isEmpty then
      loadStage "Stock loading error: " env.loadStocksOutcome tr.2
    else (0, tr.2)
  let lp := if env.cfg.loadPrices && !transformed.isEmpty then
      loadStage "Price loading error: " env.loadPricesOutcome ls.2
    else (0, ls.2)
  let ci := if env.cfg.calculateIndicators then
      loadStage "Indicator calculation error: " env.calcIndOutcome lp.2
    else (0, lp.2)
  let ea := if env.cfg.evaluateAlerts then
      alertsStage env.notif env.alertsOutcome ci.2
    else (0, ci.2)
  let gr := if env.cfg.generateRecommendations then recsStage env.recsOutcome ea.2
    else (0, ea.2)
  mkResult gr.2.errors.isEmpty ls.1 lp.1 ci.1 ea.1 gr.1 gr.2

/-- Embeds `PipelineOrchestrator.run`: fetch (with the empty-fetch fatal early
return), validate (with the zero-valid-rows fatal early return), then
the remaining stages. -/
def runPipeline (env : OrchEnv) : PipelineResult :=
  if env.cfg.fetchNgx || env.cfg.fetchYahoo then
    if (fetchStage env ⟨[], []⟩).1.isEmpty then
      mkResult false 0 0 0 0 0
        { (fetchStage env ⟨[], []⟩).2 with
          warnings := (fetchStage env ⟨[], []⟩).2.warnings ++
            ["No data fetched from any source"] }
    else
      if env.cfg.validateData && !(fetchStage env ⟨[], []⟩).1.isEmpty then
        if (validateStage env (fetchStage env ⟨[], []⟩).2).1.isEmpty then
          mkResult false 0 0 0 0 0 (validateStage env (fetchStage env ⟨[], []⟩).2).2
        else
          afterValidate env (validateStage env (fetchStage env ⟨[], []⟩).2).1
            (validateStage env (fetchStage env ⟨[], []⟩).2).2
      else afterValidate env (fetchStage env ⟨[], []⟩).1 (fetchStage env ⟨[], []⟩).2
  else
    afterValidate env [] ⟨[], []⟩

/-- Rows left after the fetch stage (state-independent projection). -/
def fetchedRows (env : OrchEnv) : List RawRow :=
  (fetchStage env ⟨[], []⟩).1

/-- Rows left after validation (state-independent projection). -/
def cleanedRows (env : OrchEnv) : List RawRow :=
  (validateStage env ⟨[], []⟩).1

/-- Whether `run` takes one of the two fatal early returns: empty fetch
while fetching was requested, or zero usable rows after validation. -/
def earlyExit (env : OrchEnv) : Bool :=
  if env.cfg.fetchNgx || env.cfg.fetchYahoo then
    if (fetchedRows env).isEmpty then true
    else env.cfg.validateData && (cleanedRows env).isEmpty
  else false

/-- Replace only the notification environment of a run. -/
def setNotif (env : OrchEnv) (n : NotifEnv) : OrchEnv :=
  { env with notif := n }

/-! ## Specification-side predicates and concrete fixtures -/

/-- Amended firing condition of the volume-spike check, written from the
corrected claim: at least 5 price rows including the latest one, a
present latest volume, at least one earlier volume, and latest ≥ mean of
the earlier volumes × multiplier. -/
def volumeSpikeSpec (multiplier : ℚ) (prices : List PriceRow) : Bool :=
  decide (5 ≤ prices.length) &&
  (match prices.getLast? with
   | none => false
   | some latest =>
     match latest.volume with
     | none => false
     | some v =>
       let hist : List ℤ := prices.dropLast.filterMap (fun p => p.volume)
       !hist.isEmpty &&
         decide (((hist.map (fun z => (z : ℚ))).sum / (hist.length : ℚ)) * multiplier ≤ (v : ℚ)))

/-- A strictly increasing 20-sample close series (100, 101, …, 119). -/
def uptrend20 : List ℚ :=
  [100, 101, 102, 103, 104, 105, 106, 107, 108, 109,
   110, 111, 112, 113, 114, 115, 116, 117, 118, 119]

/-- Close series whose 2-sample and 3-sample SMAs are equal, then dip
(short strictly below long via an equality-to-below transition), then
flip above: 2/3 are constructor-configurable windows of the source
calculator. -/
def dipCloses : List ℚ := [9, 0, 0, 9]

/-- Short/long MA columns with a single `≤`-to-`>` flip at index 2 and
no equality-to-below dip before it. -/
def flipShort : List ℚ := [1, 1, 2]

def flipLong : List ℚ := [1, 1, 1]

/-- Five price rows, latest volume 100 against four trailing volumes of
10. -/
def vsPrices : List PriceRow :=
  [⟨100, none, some 10⟩, ⟨100, none, some 10⟩, ⟨100, none, some 10⟩,
   ⟨100, none, some 10⟩, ⟨100, none, some 100⟩]

def vsRule : AlertRuleRec :=
  ⟨1, "VOLUME_SPIKE", "Volume Spike", "WARNING", [("multiplier", 2)]⟩

def vsStock : StockRef := ⟨1, "ZEN"⟩

def vsData : MarketData :=
  ⟨fun _ _ => none, fun _ _ => none, fun _ _ => vsPrices⟩

/-- An active bullish MA-crossover rule, a stock whose latest indicator
row carries a BULLISH crossover signal, and the corresponding market
data. -/
def maRule : AlertRuleRec :=
  ⟨2, "MA_CROSSOVER", "Bullish Crossover", "INFO", []⟩

def maStock : StockRef := ⟨3, "GTCO"⟩

def maIndRow : IndicatorRow :=
  ⟨some 55, none, some .bullish, some 10, some 9⟩

def maData : MarketData :=
  ⟨fun _ _ => none, fun _ _ => some maIndRow, fun _ _ => []⟩

def maAlert : AlertDict := ⟨3, 2, 7, "INFO"⟩

/-- A notification environment with no channels and no failures. -/
def quietNotif : NotifEnv :=
  ⟨false, false, fun _ => .okSend, .okSend, none⟩

/-- A run where fetching is requested and the NGX source succeeds with
zero rows: the empty-fetch fatal early return fires with no error
recorded. -/
def fatalFetchEnv : OrchEnv where
  cfg := ⟨true, true, true, true, true, true, true, true⟩
  ngxFetch := .ok []
  valOutcome := .ok ([], ⟨[], []⟩)
  transformOutcome := .ok []
  loadStocksOutcome := .ok (0, [])
  loadPricesOutcome := .ok (0, [])
  calcIndOutcome := .ok (0, [])
  alertsOutcome := .ok []
  recsOutcome := .ok 0
  notif := quietNotif

/-- A run where every stage succeeds on one fetched row. -/
def happyEnv : OrchEnv where
  cfg := ⟨true, true, true, true, true, true, true, true⟩
  ngxFetch := .ok [1]
  valOutcome := .ok ([1], ⟨[], []⟩)
  transformOutcome := .ok [1]
  loadStocksOutcome := .ok (1, [])
  loadPricesOutcome := .ok (1, [])
  calcIndOutcome := .ok (1, [])
  alertsOutcome := .ok []
  recsOutcome := .ok 0
  notif := quietNotif

/-! ## Supporting lemmas -/

theorem lossAt_eq_zero_of_mono (closes : List ℚ)
    (h : ∀ j, j < closes.length → 0 < j →
      closes.getD (j - 1) 0 ≤ closes.getD j 0)
    (i : Nat) (hi : i < closes.length) : lossAt closes i = 0 := by
  by_cases h0 : i = 0
  · simp [lossAt, priceDelta, h0]
  · have hle := h i hi (Nat.pos_of_ne_zero h0)
    unfold lossAt priceDelta
    rw [if_neg h0]
    show (if closes.getD i 0 - closes.getD (i - 1) 0 < 0 then
        -(closes.getD i 0 - closes.getD (i - 1) 0) else 0) = 0
    rw [if_neg (by simp only [not_lt]; linarith)]

theorem lossAvg_eq_zero_of_mono (closes : List ℚ)
    (h : ∀ j, j < closes.length → 0 < j →
      closes.getD (j - 1) 0 ≤ closes.getD j 0)
    (i : Nat) : lossAvg closes i = 0 := by
  unfold lossAvg rollingMean listMean
  have hz : ∀ x ∈ rollingWindow rsiPeriod (lossSeries closes) i, x = 0 := by
    intro x hx
    have hsub : (rollingWindow rsiPeriod (lossSeries closes) i).Sublist (lossSeries closes) :=
      (List.drop_sublist _ _).trans (List.take_sublist _ _)
    have hx2 : x ∈ lossSeries closes := hsub.subset hx
    rw [lossSeries, List.mem_map] at hx2
    obtain ⟨j, hj, rfl⟩ := hx2
    rw [List.mem_range] at hj
    exact lossAt_eq_zero_of_mono closes h j hj
  rw [List.sum_eq_zero hz, zero_div]

theorem uptrend20_mono :
    ∀ j, j < uptrend20.length → 0 < j →
      uptrend20.getD (j - 1) 0 ≤ uptrend20.getD j 0 := by
  decide

theorem isSome_ite_some {α : Type} (b : Prop) [Decidable b] (x : α) :
    (if b then some x else none).isSome = decide b := by
  by_cases h : b
  · simp [h]
  · simp [h]

/-- Confidence leaving `_aggregate_signals` is always inside the clamp
(the empty-input guard returns the neutral 0.5, also inside). -/
theorem aggregateSignals_conf_bounds (sigs : List (Sig × ℚ)) :
    1/10 ≤ (aggregateSignals sigs).2 ∧ (aggregateSignals sigs).2 ≤ 19/20 := by
  unfold aggregateSignals
  split
  · constructor <;> norm_num
  · refine ⟨le_max_right _ _, ?_⟩
    exact max_le (le_trans (min_le_right _ _) (by norm_num)) (by norm_num)

/-! ## Claim theorems -/

/-- Claim C1 (code bug): on the strictly increasing 20-sample close series
100..119 the rolling average loss over the RSI window is zero at the
last row, yet the computed RSI is the neutral fill 50, not the claimed
100 — in particular the last RSI is not strictly above 50. The source
replaces a zero average loss by NaN and then fills NaN with 50. -/
theorem C1_uptrend_rsi_neutral_not_100 :
    lossAvg uptrend20 19 = 0 ∧ rsiAt uptrend20 19 = 50 ∧
      ¬ (50 : ℚ) < rsiAt uptrend20 19 := by
  have hz := lossAvg_eq_zero_of_mono uptrend20 uptrend20_mono 19
  refine ⟨hz, ?_, ?_⟩
  · simp [rsiAt, hz]
  · simp [rsiAt, hz]

/-- Claim C8: for every threshold configuration and indicator input, the
confidence of the signal returned by `generate_signal` lies in
[0.1, 0.95]. -/
theorem C8_confidence_clamped (p : SGParams) (ind : Inds) :
    1/10 ≤ (generateSignal p ind).confidence ∧
      (generateSignal p ind).confidence ≤ 19/20 := by
  simp only [generateSignal]
  split
  · exact ⟨by norm_num, by norm_num⟩
  · exact aggregateSignals_conf_bounds _

/-- Claim C10: when no analyzer produces a vote (for instance on an empty
indicator dict), `generate_signal` returns HOLD with confidence exactly
0.5 and the single reason "Insufficient indicator data". -/
theorem C10_no_votes_insufficient_data_hold (p : SGParams) (ind : Inds)
    (h1 : analyzeRsi p ind.rsi14 = none)
    (h2 : analyzeMacd ind.macd ind.macdSignalVal = none)
    (h3 : analyzeMAs ind.currentPrice ind.sma50 ind.sma200 = none)
    (h4 : analyzeVolume ind.volumeRatio = none) :
    generateSignal p ind =
      ⟨.hold, 1/2, ["Insufficient indicator data"], ind⟩ := by
  simp [generateSignal, h1, h2, h3, h4, rsiReasons, macdReasons, maReasons, volReasons]

/-- Witness for C10 at the empty indicator dict. -/
theorem C10_no_votes_witness :
    generateSignal defaultSGParams noInds =
      ⟨.hold, 1/2, ["Insufficient indicator data"], noInds⟩ :=
  C10_no_votes_insufficient_data_hold defaultSGParams noInds rfl rfl rfl rfl

/-- Claim C5 (counterexample): at the first row no daily return exists,
yet the stored annualized volatility is 0.0, not `None` — the source
runs `fillna(0)` on the volatility column, silently substituting zero. -/
theorem C5_first_row_volatility_zero_filled :
    returnAt [1, 2] 0 = none ∧ volatilityOut [1, 2] 0 = some 0 :=
  ⟨rfl, rfl⟩

/-- Claim C5 (amended): at row 0 of any nonempty series the Bollinger
band outputs (whose rolling std needs two samples) are `None`, the
moving average (inputs present) is the close itself, and the two
exceptions substitute values: RSI is the neutral 50 and the annualized
volatility is zero-filled. -/
theorem C5_absent_inputs_none_except_rsi_and_volatility (closes : List ℚ)
    (h : closes ≠ []) :
    bbUpperOut closes 0 = none ∧ bbLowerOut closes 0 = none ∧
    maShortOut closes 0 = some (closes.getD 0 0) ∧
    rsiOut closes 0 = some 50 ∧
    volatilityOut closes 0 = some 0 := by
  obtain ⟨c, rest, rfl⟩ := List.exists_cons_of_ne_nil h
  have hloss : lossAvg (c :: rest) 0 = 0 := by
    unfold lossAvg rollingMean rollingWindow listMean lossSeries
    rw [List.length_cons, List.range_succ_eq_map]
    simp [lossAt, priceDelta, rsiPeriod]
  have hvol : volVar (c :: rest) 0 = none := by
    unfold volVar volWindow returnsList
    rw [List.length_cons, List.range_succ_eq_map]
    simp [returnAt, sampleVar, volatilityPeriod]
  refine ⟨?_, ?_, ?_, ?_, ?_⟩
  · simp [bbUpperOut, bbVar, sampleVar, rollingWindow, bollingerPeriod]
  · simp [bbLowerOut, bbVar, sampleVar, rollingWindow, bollingerPeriod]
  · simp [maShortOut, rollingMean, rollingWindow, listMean, maShortPeriod]
  · have h50 : rsiAt (c :: rest) 0 = 50 := by
      unfold rsiAt
      split
      · rfl
      · exact absurd hloss (by assumption)
    rw [rsiOut, h50]
  · have hfill : volatilityFill (c :: rest) 0 = 0 := by
      unfold volatilityFill
      rw [hvol]
    rw [volatilityOut, hfill]

/-- Witness input for C5: the one-row series `[1]`. -/
theorem C5_absent_inputs_witness :
    bbUpperOut [1] 0 = none ∧ bbLowerOut [1] 0 = none ∧
    maShortOut [1] 0 = some (([1] : List ℚ).getD 0 0) ∧
    rsiOut [1] 0 = some 50 ∧
    volatilityOut [1] 0 = some 0 :=
  C5_absent_inputs_none_except_rsi_and_volatility [1] (by simp)

/-- Concrete defined Bollinger window: two equal closes give rolling
sample variance 0 at row 1. -/
theorem bbVar_pair_ones : bbVar [1, 1] 1 = some 0 := by
  norm_num [bbVar, sampleVar, rollingWindow, listMean, bollingerPeriod]

/-- Claim C9: wherever the Bollinger std is defined, the stored bands are
`middle ± bollinger_std · √variance`, and they satisfy
`lower ≤ middle ≤ upper` because the std is nonnegative. -/
theorem C9_bollinger_band_order (closes : List ℚ) (i : Nat) (v : ℚ)
    (hv : bbVar closes i = some v) :
    bbUpperOut closes i =
      some ((bbMiddle closes i : ℝ) + (bollingerStd : ℝ) * Real.sqrt (v : ℝ)) ∧
    bbLowerOut closes i =
      some ((bbMiddle closes i : ℝ) - (bollingerStd : ℝ) * Real.sqrt (v : ℝ)) ∧
    (bbMiddle closes i : ℝ) - (bollingerStd : ℝ) * Real.sqrt (v : ℝ) ≤
      (bbMiddle closes i : ℝ) ∧
    (bbMiddle closes i : ℝ) ≤
      (bbMiddle closes i : ℝ) + (bollingerStd : ℝ) * Real.sqrt (v : ℝ) := by
  have hs : (0 : ℝ) ≤ (bollingerStd : ℝ) * Real.sqrt (v : ℝ) := by
    apply mul_nonneg
    · norm_num [bollingerStd]
    · exact Real.sqrt_nonneg _
  refine ⟨?_, ?_, by linarith, by linarith⟩
  · simp [bbUpperOut, hv]
  · simp [bbLowerOut, hv]

/-- Witness for C9 at the series `[1, 1]`, row 1. -/
theorem C9_bollinger_band_order_witness :
    bbUpperOut [1, 1] 1 =
      some ((bbMiddle [1, 1] 1 : ℝ) + (bollingerStd : ℝ) * Real.sqrt ((0 : ℚ) : ℝ)) ∧
    bbLowerOut [1, 1] 1 =
      some ((bbMiddle [1, 1] 1 : ℝ) - (bollingerStd : ℝ) * Real.sqrt ((0 : ℚ) : ℝ)) ∧
    (bbMiddle [1, 1] 1 : ℝ) - (bollingerStd : ℝ) * Real.sqrt ((0 : ℚ) : ℝ) ≤
      (bbMiddle [1, 1] 1 : ℝ) ∧
    (bbMiddle [1, 1] 1 : ℝ) ≤
      (bbMiddle [1, 1] 1 : ℝ) + (bollingerStd : ℝ) * Real.sqrt ((0 : ℚ) : ℝ) :=
  C9_bollinger_band_order [1, 1] 1 0 bbVar_pair_ones

/-- Claim C6 (counterexample): with only four trailing rows (five rows
including the evaluation day) the volume-spike check fires — the source
requires five rows *including* the latest, not five trailing samples. -/
theorem C6_four_trailing_rows_still_fire :
    ((vsData.priceHistory vsStock.stockId 7).dropLast.filterMap
        (fun p => p.volume)).length = 4 ∧
    checkVolumeSpike vsRule vsStock 7 vsData ≠ none := by
  constructor
  · rfl
  · simp only [checkVolumeSpike, vsData, vsPrices, vsRule, vsStock, paramGet]
    norm_num [List.filterMap_cons, List.filterMap_nil, List.sum_cons, List.sum_nil,
      List.length_cons, List.length_nil]
    try exact Option.some_ne_none _

/-- Claim C6 (amended): the check fires exactly when at least 5 price rows
including the evaluation day exist, the latest volume is present, at
least one trailing volume exists, and latest ≥ trailing mean ×
multiplier; in every other case it is silently skipped. -/
theorem C6_volume_spike_characterization (rule : AlertRuleRec) (stock : StockRef)
    (d : Nat) (data : MarketData) :
    (checkVolumeSpike rule stock d data).isSome =
      volumeSpikeSpec (paramGet rule.parameters "multiplier" 2)
        (data.priceHistory stock.stockId d) := by
  unfold checkVolumeSpike volumeSpikeSpec
  set prices := data.priceHistory stock.stockId d with hp
  by_cases h5 : prices.length < 5
  · rw [if_pos h5]
    have hd : decide (5 ≤ prices.length) = false := by
      simpa using Nat.not_le.mpr h5
    simp [hd]
  · rw [if_neg h5]
    have h5d : decide (5 ≤ prices.length) = true := by
      simpa using Nat.not_lt.mp h5
    cases hgl : prices.getLast? with
    | none => simp [hgl, h5d]
    | some latest =>
      cases hv : latest.volume with
      | none => simp [hgl, hv, h5d]
      | some v =>
        by_cases hh : (prices.dropLast.filterMap (fun p => p.volume)).isEmpty
        · simp [hgl, hv, h5d, hh]
        · simp [hgl, hv, h5d, hh]
          exact isSome_ite_some _ _

/-- Claim C3 (code bug): a triggered bullish MA-crossover alert is
produced by evaluation, but `save_alerts` passes the dict keys
(`metadata` present, `alert_type` absent) to `create_alert`, whose
keyword call never binds; nothing is persisted, so an immediate second
evaluation for the same date with unchanged data regenerates the very
same alert instead of zero. -/
theorem C3_save_never_persists_second_run_repeats :
    evaluateAllRules [] [maRule] [maStock] 7 maData = [maAlert] ∧
    saveAlerts [] (evaluateAllRules [] [maRule] [maStock] 7 maData) = [] ∧
    evaluateAllRules (saveAlerts [] (evaluateAllRules [] [maRule] [maStock] 7 maData))
      [maRule] [maStock] 7 maData = [maAlert] := by
  refine ⟨?_, ?_, ?_⟩ <;> decide

theorem detectCrossovers_getD (s l : List ℚ) (j : Nat) (hj : j < s.length) :
    (detectCrossovers s l).getD j none = crossAt s l j := by
  unfold detectCrossovers
  rw [List.getD_eq_getElem _ _ (by simpa using hj)]
  simp

/-- Claim C4 (amended): if the short/long MA relation is `≤` before index
`k`, `>` from `k` on, and no `≥`-to-`<` transition (which the source
reports as BEARISH) occurs before `k`, then the crossover column is
BULLISH exactly at `k` and null everywhere else. -/
theorem C4_single_flip_no_bearish_single_bullish (s l : List ℚ) (k : Nat)
    (hk1 : 1 ≤ k) (hk2 : k < s.length)
    (hbefore : ∀ i, i < k → s.getD i 0 ≤ l.getD i 0)
    (hafter : ∀ i, i < s.length → k ≤ i → l.getD i 0 < s.getD i 0)
    (hnodip : ∀ i, i < k → 1 ≤ i →
      ¬(l.getD (i - 1) 0 ≤ s.getD (i - 1) 0 ∧ s.getD i 0 < l.getD i 0)) :
    (detectCrossovers s l).getD k none = some .bullish ∧
    ∀ j, j < s.length → j ≠ k → (detectCrossovers s l).getD j none = none := by
  constructor
  · rw [detectCrossovers_getD s l k hk2]
    unfold crossAt
    rw [if_neg (by omega)]
    rw [if_pos ⟨hbefore (k - 1) (by omega), hafter k hk2 le_rfl⟩]
  · intro j hjlen hjk
    rw [detectCrossovers_getD s l j hjlen]
    unfold crossAt
    by_cases hj0 : j = 0
    · rw [if_pos hj0]
    · rw [if_neg hj0]
      rcases lt_or_gt_of_ne hjk with hlt | hgt
      · have hcur : s.getD j 0 ≤ l.getD j 0 := hbefore j hlt
        have hb : ¬(s.getD (j - 1) 0 ≤ l.getD (j - 1) 0 ∧ l.getD j 0 < s.getD j 0) := by
          rintro ⟨-, h2⟩
          exact absurd h2 (not_lt.mpr hcur)
        rw [if_neg hb, if_neg (hnodip j hlt (by omega))]
      · have hprev : l.getD (j - 1) 0 < s.getD (j - 1) 0 :=
          hafter (j - 1) (by omega) (by omega)
        have hcur : l.getD j 0 < s.getD j 0 := hafter j hjlen (by omega)
        have hb : ¬(s.getD (j - 1) 0 ≤ l.getD (j - 1) 0 ∧ l.getD j 0 < s.getD j 0) := by
          rintro ⟨h1, -⟩
          exact absurd h1 (not_le.mpr hprev)
        have hbear : ¬(l.getD (j - 1) 0 ≤ s.getD (j - 1) 0 ∧ s.getD j 0 < l.getD j 0) := by
          rintro ⟨-, h2⟩
          exact absurd h2 (not_lt.mpr hcur.le)
        rw [if_neg hb, if_neg hbear]

/-- Witness for C4: MA pair flipping from equality to strictly above at
index 2. -/
theorem C4_single_flip_witness :
    (detectCrossovers flipShort flipLong).getD 2 none = some .bullish ∧
    ∀ j, j < flipShort.length → j ≠ 2 →
      (detectCrossovers flipShort flipLong).getD j none = none :=
  C4_single_flip_no_bearish_single_bullish flipShort flipLong 2
    (by decide) (by decide) (by decide) (by decide) (by decide)

/-- Claim C4 (counterexample): the close series [9, 0, 0, 9] under 2/3-row
MA windows (constructor parameters of the source calculator) has its
short-vs-long relation `≤` up to index 2 and `>` from index 3 on — a
single flip — yet the crossover column reports BEARISH at index 2
(equality-to-below counts as a `≥`-to-`<` transition), violating "null
at every other index". -/
theorem C4_equality_dip_emits_bearish :
    (∀ i, i < 3 → (movingAvg 2 dipCloses).getD i 0 ≤ (movingAvg 3 dipCloses).getD i 0) ∧
    (∀ i, i < 4 → 3 ≤ i →
      (movingAvg 3 dipCloses).getD i 0 < (movingAvg 2 dipCloses).getD i 0) ∧
    (calcCrossovers 2 3 dipCloses).getD 2 none = some .bearish ∧
    (calcCrossovers 2 3 dipCloses).getD 3 none = some .bullish := by
  have hr : List.range dipCloses.length = [0, 1, 2, 3] := rfl
  have h2 : movingAvg 2 dipCloses = [9, 9/2, 0, 9/2] := by
    rw [movingAvg, hr]
    norm_num [rollingMean, rollingWindow, listMean, dipCloses]
  have h3 : movingAvg 3 dipCloses = [9, 9/2, 3, 3] := by
    rw [movingAvg, hr]
    norm_num [rollingMean, rollingWindow, listMean, dipCloses]
  refine ⟨?_, ?_, ?_, ?_⟩
  · intro i hi
    interval_cases i <;> norm_num [h2, h3]
  · intro i hi h3i
    interval_cases i
    norm_num [h2, h3]
  · rw [calcCrossovers, h2, h3, detectCrossovers_getD _ _ 2 (by norm_num)]
    norm_num [crossAt]
  · rw [calcCrossovers, h2, h3, detectCrossovers_getD _ _ 3 (by norm_num)]
    norm_num [crossAt]

theorem validateStage_fst (env : OrchEnv) (st : OrchState) :
    (validateStage env st).1 = cleanedRows env := by
  unfold cleanedRows validateStage
  cases h : env.valOutcome with
  | error e => rfl
  | ok pr =>
    obtain ⟨cleaned, rep⟩ := pr
    rfl

theorem afterValidate_success_eq (env : OrchEnv) (validated : List RawRow)
    (st : OrchState) :
    (afterValidate env validated st).success =
      ((afterValidate env validated st).errors).isEmpty := rfl

theorem afterValidate_success_iff (env : OrchEnv) (validated : List RawRow)
    (st : OrchState) :
    ((afterValidate env validated st).success = true ↔
      (afterValidate env validated st).errors = []) := by
  rw [afterValidate_success_eq]
  exact List.isEmpty_iff

/-- Claim C2 (counterexample): with fetching requested and the NGX source
succeeding with zero rows, `run` takes the empty-fetch fatal early
return: `success` is false while `errors` is empty, so success and
errors-emptiness disagree. -/
theorem C2_empty_fetch_success_errors_disagree :
    (runPipeline fatalFetchEnv).success = false ∧
      (runPipeline fatalFetchEnv).errors = [] :=
  ⟨rfl, rfl⟩

/-- Claim C2 (amended): on every run that avoids the two fatal early
returns (empty fetch while fetching was requested, zero rows after
validation), `success = true` exactly when the errors list is empty; in
the fatal early returns `success` is false regardless of `errors`. -/
theorem C2_success_iff_no_errors_without_early_exit (env : OrchEnv)
    (h : earlyExit env = false) :
    ((runPipeline env).success = true ↔ (runPipeline env).errors = []) := by
  unfold runPipeline
  unfold earlyExit fetchedRows at h
  by_cases hf : (env.cfg.fetchNgx || env.cfg.fetchYahoo) = true
  · rw [if_pos hf] at h
    rw [if_pos hf]
    by_cases hemp : (fetchStage env ⟨[], []⟩).1.isEmpty = true
    · rw [if_pos hemp] at h
      cases h
    · rw [if_neg hemp] at h
      rw [if_neg hemp]
      by_cases hvd : env.cfg.validateData = true
      · have hguard : (env.cfg.validateData && !(fetchStage env ⟨[], []⟩).1.isEmpty) = true := by
          rw [hvd]
          simp [Bool.not_eq_true] at hemp ⊢
          exact hemp
        rw [if_pos hguard]
        have hcl : (cleanedRows env).isEmpty = false := by
          rw [hvd] at h
          simpa using h
        have hfst : ¬ ((validateStage env (fetchStage env ⟨[], []⟩).2).1.isEmpty = true) := by
          rw [validateStage_fst, hcl]
          simp
        rw [if_neg hfst]
        exact afterValidate_success_iff env _ _
      · have hvd2 : env.cfg.validateData = false := by
          revert hvd
          cases env.cfg.validateData <;> simp
        rw [if_neg (by rw [hvd2]; simp)]
        exact afterValidate_success_iff env _ _
  · rw [if_neg hf]
    exact afterValidate_success_iff env _ _

/-- Witness for C2: the all-stages-succeed run is successful. -/
theorem C2_success_iff_no_errors_witness :
    (runPipeline happyEnv).success = true :=
  (C2_success_iff_no_errors_without_early_exit happyEnv rfl).mpr rfl

theorem notifSendStep_errors (n : NotifEnv) (s : OrchState) (a : AlertInfo) :
    (notifSendStep n s a).errors = s.errors := by
  unfold notifSendStep
  split
  · cases n.sendAlert a.alertId <;> rfl
  · rfl

theorem foldl_notifSendStep_errors (n : NotifEnv) (alerts : List AlertInfo) :
    ∀ st : OrchState, (alerts.foldl (notifSendStep n) st).errors = st.errors := by
  induction alerts with
  | nil => intro st; rfl
  | cons a rest ih =>
    intro st
    rw [List.foldl_cons, ih, notifSendStep_errors]

theorem sendAlertNotifications_errors (n : NotifEnv) (alerts : List AlertInfo)
    (st : OrchState) : (sendAlertNotifications n alerts st).errors = st.errors := by
  unfold sendAlertNotifications
  cases hse : n.setupExc with
  | some m => rfl
  | none =>
    by_cases hch :
        (((if n.emailEnabled then ["email"] else [])
          ++ (if n.slackEnabled then ["slack"] else [])).isEmpty) = true
    · rw [if_pos hch]
    · rw [if_neg hch]
      by_cases hmail :
          (n.emailEnabled && !(alerts.filter (fun a => a.severity = "WARNING")).isEmpty) = true
      · rw [if_pos hmail]
        cases n.digest <;> simp [foldl_notifSendStep_errors]
      · rw [if_neg hmail]
        exact foldl_notifSendStep_errors n alerts st

theorem alertsStage_snd_errors (n : NotifEnv) (out : Except String (List AlertInfo))
    (st : OrchState) :
    ((alertsStage n out st).2).errors =
      (match out with
       | .error e => st.errors ++ ["Alert evaluation error: " ++ e]
       | .ok _ => st.errors) := by
  cases out with
  | error e => rfl
  | ok alerts =>
    simp only [alertsStage]
    split
    · rw [sendAlertNotifications_errors]
    · rfl

theorem recsStage_snd_errors (out : Except String Nat) (st : OrchState) :
    ((recsStage out st).2).errors =
      (match out with
       | .error e => st.errors ++ ["Recommendation generation error: " ++ e]
       | .ok _ => st.errors) := by
  cases out <;> rfl

theorem afterValidate_errors_notif_irrel (e₁ e₂ : OrchEnv)
    (validated : List RawRow) (st : OrchState)
    (hc : e₁.cfg = e₂.cfg) (ht : e₁.transformOutcome = e₂.transformOutcome)
    (hls : e₁.loadStocksOutcome = e₂.loadStocksOutcome)
    (hlp : e₁.loadPricesOutcome = e₂.loadPricesOutcome)
    (hci : e₁.calcIndOutcome = e₂.calcIndOutcome)
    (hao : e₁.alertsOutcome = e₂.alertsOutcome)
    (hro : e₁.recsOutcome = e₂.recsOutcome) :
    (afterValidate e₁ validated st).errors = (afterValidate e₂ validated st).errors := by
  unfold afterValidate mkResult transformStage
  rw [hc, ht, hls, hlp, hci, hao, hro]
  by_cases hgr : e₂.cfg.generateRecommendations = true <;>
    by_cases hea : e₂.cfg.evaluateAlerts = true <;>
      simp [hgr, hea, recsStage_snd_errors, alertsStage_snd_errors]

/-- Claim C7: a notification failure never reaches the errors list — the
notification stage only appends warnings — and the `errors` and
`success` of the whole run are unchanged under any change of the notification
environment (channel flags, per-send failures or exceptions, digest
failures). -/
theorem C7_notification_never_touches_errors (env : OrchEnv) (n₁ n₂ : NotifEnv)
    (alerts : List AlertInfo) (st : OrchState) :
    (sendAlertNotifications n₁ alerts st).errors = st.errors ∧
    (runPipeline (setNotif env n₁)).errors = (runPipeline (setNotif env n₂)).errors ∧
    (runPipeline (setNotif env n₁)).success = (runPipeline (setNotif env n₂)).success := by
  have hAV : ∀ (validated : List RawRow) (stx : OrchState),
      (afterValidate (setNotif env n₁) validated stx).errors =
        (afterValidate (setNotif env n₂) validated stx).errors := by
    intro validated stx
    have h1 := afterValidate_errors_notif_irrel (setNotif env n₁) env validated stx
      rfl rfl rfl rfl rfl rfl rfl
    have h2 := afterValidate_errors_notif_irrel (setNotif env n₂) env validated stx
      rfl rfl rfl rfl rfl rfl rfl
    rw [h1, h2]
  have hAVs : ∀ (validated : List RawRow) (stx : OrchState),
      (afterValidate (setNotif env n₁) validated stx).success =
        (afterValidate (setNotif env n₂) validated stx).success := by
    intro validated stx
    rw [afterValidate_success_eq, afterValidate_success_eq, hAV]
  have hfs : ∀ stx : OrchState,
      fetchStage (setNotif env n₁) stx = fetchStage (setNotif env n₂) stx :=
    fun _ => rfl
  have hvs : ∀ stx : OrchState,
      validateStage (setNotif env n₁) stx = validateStage (setNotif env n₂) stx :=
    fun _ => rfl
  have key : (runPipeline (setNotif env n₁)).errors = (runPipeline (setNotif env n₂)).errors ∧
      (runPipeline (setNotif env n₁)).success = (runPipeline (setNotif env n₂)).success := by
    unfold runPipeline
    rw [show (setNotif env n₁).cfg = env.cfg from rfl,
      show (setNotif env n₂).cfg = env.cfg from rfl,
      show fetchStage (setNotif env n₂) ⟨[], []⟩ = fetchStage (setNotif env n₁) ⟨[], []⟩
        from (hfs ⟨[], []⟩).symm,
      show validateStage (setNotif env n₂) (fetchStage (setNotif env n₁) ⟨[], []⟩).2 =
          validateStage (setNotif env n₁) (fetchStage (setNotif env n₁) ⟨[], []⟩).2
        from (hvs _).symm]
    by_cases hf : (env.cfg.fetchNgx || env.cfg.fetchYahoo) = true
    · rw [if_pos hf, if_pos hf]
      by_cases hemp : (fetchStage (setNotif env n₁) ⟨[], []⟩).1.isEmpty = true
      · rw [if_pos hemp, if_pos hemp]
        exact ⟨rfl, rfl⟩
      · rw [if_neg hemp, if_neg hemp]
        by_cases hguard :
            (env.cfg.validateData && !(fetchStage (setNotif env n₁) ⟨[], []⟩).1.isEmpty) = true
        · rw [if_pos hguard, if_pos hguard]
          by_cases hvemp :
              (validateStage (setNotif env n₁) (fetchStage (setNotif env n₁) ⟨[], []⟩).2).1.isEmpty = true
          · rw [if_pos hvemp, if_pos hvemp]
            exact ⟨rfl, rfl⟩
          · rw [if_neg hvemp, if_neg hvemp]
            exact ⟨hAV _ _, hAVs _ _⟩
        · rw [if_neg hguard, if_neg hguard]
          exact ⟨hAV _ _, hAVs _ _⟩
    · rw [if_neg hf, if_neg hf]
      exact ⟨hAV _ _, hAVs _ _⟩
  exact ⟨sendAlertNotifications_errors n₁ alerts st, key.1, key.2⟩

end StockPipeline
